import Mathlib

/-!
Shallow embedding of `src/index.js` of the cloudflare-worker-image repository
(the current variant, with the two-phase WEBP decode), together with theorems
settling the specification claims about it.

Conventions of the embedding:
* JavaScript strings are Lean `String`s; the JS string operations used by the
  source (`split`, `endsWith`, `startsWith`, lowercasing) are re-implemented
  structurally over `String.data` so that every definition evaluates inside
  the kernel.
* A thrown JS exception is `Except.error` carrying the error's `name` and
  `message` (the source inspects `error.name`).
* The external collaborators (the WHATWG URL parser, the network, the photon
  wasm module, the WEBP codec) are fields of a `World` record; concrete demo
  worlds instantiate them for ground witnesses and counterexamples.
* Native photon image buffers are handles (numeric ids) into an explicit heap;
  allocation and `free()` append events to a trace so that release discipline
  is observable.
-/

namespace CWI

/-- Error value of a thrown JS exception: the source distinguishes errors by
their `name` property (`'RuntimeError' === error.name`). -/
structure JSError where
  name : String
  message : String
  deriving Repr, DecidableEq

/-- Constructor for the `TypeError`s thrown by the JS runtime itself
(calling `undefined`, `new URL` on an unparseable string). -/
def JSError.typeError (msg : String) : JSError := ⟨"TypeError", msg⟩

instance {ε α : Type} [DecidableEq ε] [DecidableEq α] : DecidableEq (Except ε α)
  | .ok a, .ok b => if h : a = b then .isTrue (by rw [h]) else .isFalse (by intro hh; cases hh; exact h rfl)
  | .error a, .error b => if h : a = b then .isTrue (by rw [h]) else .isFalse (by intro hh; cases hh; exact h rfl)
  | .ok _, .error _ => .isFalse (by intro hh; cases hh)
  | .error _, .ok _ => .isFalse (by intro hh; cases hh)

/-- Helper for `jsSplit`: split a character list at every occurrence of `sep`,
accumulating the current chunk in reverse. -/
def splitListAux (sep : Char) : List Char → List Char → List (List Char)
  | [], acc => [acc.reverse]
  | c :: cs, acc =>
    if c == sep then acc.reverse :: splitListAux sep cs []
    else splitListAux sep cs (c :: acc)

/-- JavaScript `String.prototype.split` with a single-character separator.
Mirrors JS semantics: the result is never empty, and splitting the empty
string yields `[""]` (one empty chunk), not `[]`. -/
def jsSplit (sep : Char) (s : String) : List String :=
  (splitListAux sep s.data []).map String.mk

/-- Test whether the first list begins with the second (pattern) list. -/
def listStartsWith : List Char → List Char → Bool
  | _, [] => true
  | [], _ :: _ => false
  | c :: cs, d :: ds => c == d && listStartsWith cs ds

/-- JavaScript `String.prototype.endsWith`. Every string ends with `""`. -/
def jsEndsWith (s post : String) : Bool :=
  listStartsWith s.data.reverse post.data.reverse

/-- JavaScript `String.prototype.startsWith`. -/
def jsStartsWith (s pre : String) : Bool :=
  listStartsWith s.data pre.data

/-- ASCII lowercasing, used to model the case-insensitivity of header names. -/
def jsToLower (s : String) : String := String.mk (s.data.map Char.toLower)

/-- JavaScript `Array.prototype.find`: the first element satisfying the
predicate, or `none` (JS `undefined`). -/
def jsFind (p : String → Bool) : List String → Option String
  | [] => none
  | x :: xs => if p x then some x else jsFind p xs

/-- JS truthiness of `find`'s result: `undefined` and the empty string are
falsy, every other string is truthy. -/
def jsTruthyStr : Option String → Bool
  | none => false
  | some s => !(s == "")

/-- First-match association lookup (JS plain-object property access on the
fixed tables, and the cache's `match` keyed by URL string). -/
def assocFind {α : Type} (l : List (String × α)) (k : String) : Option α :=
  (l.find? (fun kv => kv.1 == k)).map (fun kv => kv.2)

/-- The `Headers.get` operation: header names compare case-insensitively;
absence is JS `null`, modelled as `none`. -/
def headersGet (hs : List (String × String)) (k : String) : Option String :=
  (hs.find? (fun kv => jsToLower kv.1 == jsToLower k)).map (fun kv => kv.2)

/-- Stringification applied by the `Headers` record initializer to each
member value: `undefined` (a missing table entry) becomes the literal string
`"undefined"`. -/
def jsHeaderString : Option String → String
  | none => "undefined"
  | some s => s

/-- Worker environment bindings: `WHITE_LIST` is `none` when the binding is
absent (JS `undefined`). -/
structure Env where
  WHITE_LIST : Option String
  deriving Repr, DecidableEq

/-- Evaluation of `env.WHITE_LIST ? env.WHITE_LIST.split(',') : []`
(src/index.js line 174): an absent or empty (falsy) binding gives the empty
list, otherwise the comma-split of the configuration string. -/
def whiteListOf (env : Env) : List String :=
  match env.WHITE_LIST with
  | none => []
  | some s => if s == "" then [] else jsSplit ',' s

/-- Embedding of `inWhiteList` (src/index.js lines 172-176). `new URL(url)`
is modelled by the `parseHostname` collaborator: `none` means the URL does
not parse, in which case `new URL` throws a `TypeError` — the function has no
exception handling of its own, so the throw propagates to the caller.
On a parse success the result is the source's expression
`!(whiteList.length && !whiteList.find((hostname) => imageUrl.hostname.endsWith(hostname)))`,
where the truthiness of `find`'s result (the matched element itself) decides
the inner negation. -/
def inWhiteList (parseHostname : String → Option String) (env : Env) (url : String) :
    Except JSError Bool :=
  match parseHostname url with
  | none => .error (JSError.typeError "Invalid URL")
  | some host =>
    let whiteList := whiteListOf env
    .ok (!(whiteList.length != 0 && !(jsTruthyStr (jsFind (fun hostname => jsEndsWith host hostname) whiteList))))

/-- Decoded native image buffer contents (photon `PhotonImage` payload). -/
structure ImageVal where
  width : Nat
  height : Nat
  data : List Nat
  deriving Repr, DecidableEq

/-- Resource-lifecycle event on native image handles. -/
inductive REvent where
  | alloc (id : Nat)
  | free (id : Nat)
  deriving Repr, DecidableEq

/-- Heap of live native image handles plus the full allocation/release trace. -/
structure PState where
  nextId : Nat
  heap : List (Nat × ImageVal)
  events : List REvent
  deriving Repr, DecidableEq

/-- Allocate a fresh handle holding `v` (a decode or raw-pixel construction). -/
def allocHandle (v : ImageVal) (st : PState) : Nat × PState :=
  (st.nextId,
   { nextId := st.nextId + 1,
     heap := (st.nextId, v) :: st.heap,
     events := st.events ++ [REvent.alloc st.nextId] })

/-- Value of a live handle; `none` when the handle has been freed
(`.ptr` is falsy in wasm-bindgen terms). -/
def heapGet (st : PState) (h : Nat) : Option ImageVal :=
  (st.heap.find? (fun kv => kv.1 == h)).map (fun kv => kv.2)

/-- Overwrite the buffer behind a live handle (in-place mutation by photon). -/
def heapSet (st : PState) (h : Nat) (v : ImageVal) : PState :=
  { st with heap := st.heap.map (fun kv => if kv.1 == h then (h, v) else kv) }

/-- Embedding of `img.ptr && img.free()`: release the handle only when it is
still live, recording a release event. -/
def freeIfLive (st : PState) (h : Nat) : PState :=
  match heapGet st h with
  | none => st
  | some _ =>
    { st with heap := st.heap.filter (fun kv => !(kv.1 == h)),
              events := st.events ++ [REvent.free h] }

/-- Number of release events recorded for handle `h`. -/
def freeCount (events : List REvent) (h : Nat) : Nat :=
  (events.filter (fun e =>
    match e with
    | .free i => i == h
    | .alloc _ => false)).length

/-- Result of a JS `fetch`: the `ok` flag, status, headers and body bytes
(`arrayBuffer()` read into a `Uint8Array`, modelled as a byte list). -/
structure FetchResult where
  ok : Bool
  status : Nat
  headers : List (String × String)
  bytes : List Nat
  deriving Repr, DecidableEq

/-- Payload of the `ImageData` object returned by the external WEBP decoder
(`decodeWebp`): raw pixel bytes plus explicit dimensions. -/
structure WebpImageData where
  data : List Nat
  width : Nat
  height : Nat
  deriving Repr, DecidableEq

/-- One function export of the photon wasm module. A JS function can be
invoked at any arity, so both call shapes are modelled: `call1` is invocation
with one image argument plus string parameters, returning the mutated
argument buffer and the JS return value (`none` = `undefined`, `some` = a
freshly allocated image); `call2` is invocation with two image arguments plus
string parameters, returning the mutated buffers of both arguments (the dual
photon operations `watermark` and `blend` mutate the first image and return
`undefined`, and the source discards their return value). -/
structure PhotonFn where
  call1 : ImageVal → List String → Except JSError (ImageVal × Option ImageVal)
  call2 : ImageVal → ImageVal → List String → Except JSError (ImageVal × ImageVal)

/-- External collaborators of the worker, fixed for the duration of a
request: the WHATWG URL parser (`none` = the string does not parse), the
network, the photon module namespace (`photonOps name = none` means the
property access `photon[name]` yields `undefined`), and the codecs. -/
structure World where
  parseHostname : String → Option String
  fetch : String → FetchResult
  newFromByteslice : List Nat → Except JSError ImageVal
  decodeWebp : List Nat → Except JSError WebpImageData
  photonOps : String → Option PhotonFn
  encodeJpeg : ImageVal → String → Except JSError (List Nat)
  encodePng : ImageVal → Except JSError (List Nat)
  encodeWebp : ImageVal → String → Except JSError (List Nat)

/-- The fixed list of two-image operation names (src/index.js line 170). -/
def multipleImageMode : List String := ["watermark", "blend"]

/-- Step parsing of src/index.js lines 179-180:
`const [action, options = ''] = pipeAction.split('!'); const params = options.split(',')`.
The destructuring takes the first chunk as the action name and the second
chunk (default `''` when there is no `'!'`) as the raw options string; chunks
beyond the second are dropped. The parameter list is the comma-split of the
options string. -/
def parseStep (pipeAction : String) : String × List String :=
  let parts := jsSplit '!' pipeAction
  let action := parts.headD ""
  let options := ((parts.drop 1).headD "")
  (action, jsSplit ',' options)

/-- Embedding of `processImage` (src/index.js lines 178-195). Returns the
JS return value of the function: `some h` for a returned image handle,
`none` for `undefined` (the fall-through paths of the dual branch, and
single-image photon calls that mutate in place and return nothing).
A thrown exception is an `Except.error`; note that the state reached before
the throw is discarded, as no caller inside the worker resumes from it. -/
def processImage (w : World) (env : Env) (inputImage : Nat) (pipeAction : String)
    (st : PState) : Except JSError (Option Nat × PState) :=
  let ap := parseStep pipeAction
  let action := ap.1
  let params0 := ap.2
  if multipleImageMode.contains action then
    match params0 with
    | [] => .ok (none, st) -- unreachable: a JS split is never empty ([].shift() would give undefined, skipping)
    | image2 :: params => -- const image2 = params.shift()
    if image2 == "" then .ok (none, st)
    else
      match inWhiteList w.parseHostname env image2 with
      | .error e => .error e
      | .ok false => .ok (none, st)
      | .ok true =>
        let image2Res := w.fetch image2
        if image2Res.ok then
          match w.newFromByteslice image2Res.bytes with
          | .error e => .error e
          | .ok sv =>
            let a := allocHandle sv st
            let id2 := a.1
            let st1 := a.2
            match w.photonOps action with
            | none => .error (JSError.typeError (action ++ " is not a function"))
            | some f =>
              match heapGet st1 inputImage with
              | none => .error ⟨"Error", "null pointer passed to rust"⟩
              | some pv =>
                match f.call2 pv sv params with
                | .error e => .error e
                | .ok pair =>
                  let st2 := heapSet (heapSet st1 inputImage pair.1) id2 pair.2
                  .ok (some inputImage, st2)
        else .ok (none, st)
  else
    match w.photonOps action with
    | none => .error (JSError.typeError (action ++ " is not a function"))
    | some f =>
      match heapGet st inputImage with
      | none => .error ⟨"Error", "null pointer passed to rust"⟩
      | some pv =>
        match f.call1 pv params0 with
        | .error e => .error e
        | .ok pair =>
          let st1 := heapSet st inputImage pair.1
          match pair.2 with
          | none => .ok (none, st1)
          | some v =>
            let a := allocHandle v st1
            .ok (some a.1, a.2)

/-- Embedding of the pipeline reduce (src/index.js lines 265-268): the steps
run strictly left to right, and each step's result handle is
`(await processImage(...)) || result` — the previous handle is kept whenever
the step returned `undefined`. -/
def runPipe (w : World) (env : Env) : List String → Nat → PState →
    Except JSError (Nat × PState)
  | [], h, st => .ok (h, st)
  | pa :: rest, h, st =>
    match processImage w env h pa st with
    | .error e => .error e
    | .ok (r, st1) => runPipe w env rest (r.getD h) st1

/-- The fixed format→MIME table `OUTPUT_FORMATS` (src/index.js lines 163-168). -/
def OUTPUT_FORMATS : List (String × String) :=
  [("jpeg", "image/jpeg"), ("jpg", "image/jpeg"), ("png", "image/png"), ("webp", "image/webp")]

/-- The three encode paths of the output if-chain. -/
inductive EncPath where
  | jpeg
  | png
  | webp
  deriving Repr, DecidableEq

/-- Encoder dispatch of src/index.js lines 273-281: `jpeg`/`jpg` and `png`
are matched explicitly, every other format string takes the final `else`
branch, the external WEBP encoder. -/
def selectEncoder (format : String) : EncPath :=
  if format == "jpeg" || format == "jpg" then .jpeg
  else if format == "png" then .png
  else .webp

/-- Run the selected encoder against the output image buffer:
`get_bytes_jpeg(quality)`, `get_bytes()`, or
`encodeWebp(outputImage.get_image_data(), { quality })`. -/
def encodeOutput (w : World) (img : ImageVal) (format quality : String) :
    Except JSError (List Nat) :=
  match selectEncoder format with
  | .jpeg => w.encodeJpeg img quality
  | .png => w.encodePng img
  | .webp => w.encodeWebp img quality

/-- Two-phase decode of the primary image (src/index.js lines 240-258): when
the declared `content-type` header is exactly `image/webp` the bytes go
through the external WEBP decoder and the raw pixels are rehydrated via
`PhotonImage.from_rawpixels(data, width, height)`; otherwise
`PhotonImage.new_from_byteslice` decodes the bytes directly. Either path
allocates the input handle. -/
def decodeInput (w : World) (imageRes : FetchResult) (st : PState) :
    Except JSError (Nat × PState) :=
  let contentType := headersGet imageRes.headers "content-type"
  if contentType == some "image/webp" then
    match w.decodeWebp imageRes.bytes with
    | .error e => .error e
    | .ok d => .ok (allocHandle ⟨d.width, d.height, d.data⟩ st)
  else
    match w.newFromByteslice imageRes.bytes with
    | .error e => .error e
    | .ok v => .ok (allocHandle v st)

/-- An HTTP response as the worker constructs it: status, headers, and an
optional byte body (`none` is a `null` body). -/
structure Response where
  status : Nat
  headers : List (String × String)
  body : Option (List Nat)
  deriving Repr, DecidableEq

/-- Embedding of the `try` block of the handler (src/index.js lines 239-299):
decode the fetched primary image, run the pipeline, encode, build the 200
response, then free the input and output handles guarded by their `ptr`
checks. Any throw inside the block is an `Except.error`, to be caught by
the orchestrator. -/
def tryProcess (w : World) (env : Env) (imageRes : FetchResult)
    (action format quality : String) (st : PState) :
    Except JSError (Response × PState) :=
  match decodeInput w imageRes st with
  | .error e => .error e
  | .ok (inputImage, st1) =>
    let pipe := (jsSplit '|' action).filter (fun s => !(s == ""))
    match runPipe w env pipe inputImage st1 with
    | .error e => .error e
    | .ok (outputImage, st2) =>
      match heapGet st2 outputImage with
      | none => .error ⟨"Error", "null pointer passed to rust"⟩
      | some ov =>
        match encodeOutput w ov format quality with
        | .error e => .error e
        | .ok outputImageData =>
          let imageResponse : Response :=
            { status := 200,
              headers :=
                [("content-type", jsHeaderString (assocFind OUTPUT_FORMATS format)),
                 ("cache-control", "public,max-age=15552000,s-maxage=15552000")],
              body := some outputImageData }
          let st3 := freeIfLive st2 inputImage
          let st4 := freeIfLive st3 outputImage
          .ok (imageResponse, st4)

/-- Parsed query parameters of the request (`queryString.parse` output);
`none` is an absent key, so the destructuring defaults apply. -/
structure Query where
  url : Option String
  action : Option String
  format : Option String
  quality : Option String
  deriving Repr, DecidableEq

/-- Observable outcome of one handler invocation: the response produced and
the list of cache writes issued via `context.waitUntil(cache.put(...))`. -/
structure FetchOutcome where
  response : Response
  cacheWrites : List (String × Response)
  deriving Repr, DecidableEq

/-- The fresh per-request handle state. -/
def initPState : PState := ⟨0, [], []⟩

/-- Embedding of the exported `fetch` handler (src/index.js lines 197-308).
`requestUrl` is the normalized request URL (the cache key), `cache` the
current edge-cache contents, `query` the parsed search parameters. The
quality default `99` is carried as the string `"99"` and passed opaquely to
the codecs. Note that the cache lookup, parameter extraction, whitelist
check and primary fetch happen before the `try` block: an exception thrown
there (in particular by `new URL` inside `inWhiteList`) escapes the handler
uncaught, which this embedding surfaces as an `Except.error` of the whole
function. -/
def fetchHandler (w : World) (env : Env) (requestUrl : String) (query : Query)
    (cache : List (String × Response)) : Except JSError FetchOutcome :=
  let cacheKey := requestUrl
  match assocFind cache cacheKey with
  | some cached => .ok ⟨cached, []⟩
  | none =>
    let url := query.url.getD ""
    let action := query.action.getD ""
    let format := query.format.getD "webp"
    let quality := query.quality.getD "99"
    if url == "" then
      .ok ⟨{ status := 302,
             headers := [("location", "https://github.com/ccbikai/cloudflare-worker-image")],
             body := none }, []⟩
    else
      match inWhiteList w.parseHostname env url with
      | .error e => .error e
      | .ok false => .ok ⟨{ status := 403, headers := [], body := none }, []⟩
      | .ok true =>
        let imageRes := w.fetch url
        if !imageRes.ok then
          .ok ⟨{ status := imageRes.status, headers := imageRes.headers,
                 body := some imageRes.bytes }, []⟩
        else
          match tryProcess w env imageRes action format quality initPState with
          | .ok pair =>
            .ok ⟨pair.1, [(cacheKey, pair.1)]⟩
          | .error e =>
            .ok ⟨{ status := if e.name == "RuntimeError" then 415 else 500,
                   headers := imageRes.headers,
                   body := some imageRes.bytes }, []⟩

/-- Whitelist predicate as the specification words it (sections 3 and 8): a
URL is permitted iff the suffix set is empty or the hostname ends with some
configured entry. Stated from the spec, to be compared with `inWhiteList`. -/
def specPermitted (wl : List String) (host : String) : Bool :=
  wl.isEmpty || wl.any (fun s => jsEndsWith host s)

/-- Concrete model of the WHATWG URL parser for ground instances: strings of
the shape `http://host/...` with a non-empty host parse to that host, every
other string fails to parse (as `"not a url"` does under `new URL`). -/
def demoParse (s : String) : Option String :=
  if jsStartsWith s "http://" then
    let host := String.mk ((s.data.drop 7).takeWhile (fun c => c != '/'))
    if host == "" then none else some host
  else none

/-- A 2×2 primary demo image. -/
def demoImage : ImageVal := ⟨2, 2, [1, 2, 3, 4]⟩

/-- A 1×1 secondary (watermark) demo image. -/
def demoMark : ImageVal := ⟨1, 1, [9]⟩

/-- Demo dual-image export (`watermark`/`blend` shape): mutates the primary
by appending the secondary's pixels, leaves the secondary unchanged, and —
like the photon dual operations — returns `undefined` on the one-image call
shape. -/
def demoDual : PhotonFn :=
  { call1 := fun v _ => .ok (v, none),
    call2 := fun p s _ => .ok ({ p with data := p.data ++ s.data }, s) }

/-- Demo single-image export that returns a fresh image (the `resize` shape). -/
def demoResize : PhotonFn :=
  { call1 := fun v _ => .ok (v, some { v with width := v.width + 1 }),
    call2 := fun p s _ => .ok (p, s) }

/-- Demo single-image export that mutates in place and returns `undefined`
(the `grayscale` shape). -/
def demoVoid : PhotonFn :=
  { call1 := fun v _ => .ok ({ v with data := v.data.map (fun _ => 0) }, none),
    call2 := fun p s _ => .ok (p, s) }

/-- Demo export that records how many string arguments it received: the
returned image's width is the argument count. -/
def argProbe : PhotonFn :=
  { call1 := fun v ps => .ok (v, some ⟨ps.length, 99, []⟩),
    call2 := fun p s _ => .ok (p, s) }

/-- Concrete collaborators: a small network of fixed URLs, byte-recognising
codecs, and a photon namespace exporting `watermark`, `blend`, `resize`,
`grayscale` and `probe` — and certainly not `frobnicate`. -/
def demoWorld : World :=
  { parseHostname := demoParse,
    fetch := fun url =>
      if url == "http://img.example.com/a.png" then
        ⟨true, 200, [("content-type", "image/png")], [1, 2, 3]⟩
      else if url == "http://img.example.com/c.webp" then
        ⟨true, 200, [("content-type", "image/webp")], [5, 5]⟩
      else if url == "http://img.example.com/bad.bin" then
        ⟨true, 200, [("content-type", "image/png")], [0]⟩
      else if url == "http://img.example.com/w.png" then
        ⟨true, 200, [("content-type", "image/png")], [7, 7]⟩
      else ⟨false, 404, [], []⟩,
    newFromByteslice := fun bs =>
      if bs == [1, 2, 3] then .ok demoImage
      else if bs == [7, 7] then .ok demoMark
      else .error ⟨"RuntimeError", "unreachable"⟩,
    decodeWebp := fun bs =>
      if bs == [5, 5] then .ok ⟨[8, 8, 8, 8], 1, 1⟩
      else .error ⟨"Error", "webp decode failure"⟩,
    photonOps := fun name =>
      if name == "watermark" then some demoDual
      else if name == "blend" then some demoDual
      else if name == "resize" then some demoResize
      else if name == "grayscale" then some demoVoid
      else if name == "probe" then some argProbe
      else none,
    encodeJpeg := fun _ _ => .ok [21],
    encodePng := fun _ => .ok [22],
    encodeWebp := fun _ _ => .ok [23] }

/-- Environment with no whitelist binding (allow all). -/
def envNone : Env := ⟨none⟩

/-- Environment whose whitelist string ends in a comma, producing an empty
trailing entry after the split. -/
def envTrailing : Env := ⟨some "example.com,"⟩

/-- Environment with the single suffix of the specification's example. -/
def envMiantiao : Env := ⟨some "miantiao.me"⟩

/-- Handle state with the primary demo image already decoded as handle 0. -/
def demoSt0 : PState := ⟨1, [(0, demoImage)], [REvent.alloc 0]⟩

/-- Truthiness of a first-match lookup over a list without empty entries is
plain existence of a match. -/
lemma jsTruthyStr_jsFind_of_ne (p : String → Bool) (l : List String)
    (hne : ∀ s ∈ l, s ≠ "") : jsTruthyStr (jsFind p l) = l.any p := by
  induction l with
  | nil => rfl
  | cons x xs ih =>
    by_cases hx : p x
    · have hxne : x ≠ "" := hne x (by simp)
      simp [jsFind, jsTruthyStr, hx, hxne]
    · have : ∀ s ∈ xs, s ≠ "" := fun s hs => hne s (by simp [hs])
      simp [jsFind, hx, ih this]

/-- Updating the buffer behind handle `k` changes lookups of `k` (when live)
to the new value and leaves every other lookup unchanged. -/
lemma heapGet_heapSet (st : PState) (k : Nat) (v : ImageVal) (k' : Nat) :
    heapGet (heapSet st k v) k' =
      (heapGet st k').map (fun w => if k' == k then v else w) := by
  rcases st with ⟨n, heap, ev⟩
  simp only [heapGet, heapSet]
  induction heap with
  | nil => rfl
  | cons hd tl ih =>
    by_cases h1 : hd.1 = k
    · by_cases h2 : hd.1 = k'
      · simp [List.find?, h1, h2, ← h2, beq_iff_eq]
      · have : (k == k') = false := by
          rw [beq_eq_false_iff_ne]
          intro hk; exact h2 (h1.trans hk)
        simp [List.find?, h1, this, beq_eq_false_iff_ne.mpr h2] at ih ⊢
        exact ih
    · by_cases h2 : hd.1 = k'
      · have : (k' == k) = false := by
          rw [beq_eq_false_iff_ne]
          intro hk; exact h1 (h2.symm ▸ hk : hd.1 = k)
        simp [List.find?, beq_eq_false_iff_ne.mpr h1, h2, this]
      · simp [List.find?, beq_eq_false_iff_ne.mpr h1, beq_eq_false_iff_ne.mpr h2] at ih ⊢
        exact ih

/-- Claim C1 is false on the code: the source has no registry check, so an
unknown operation name reaches `photon[action](...)` where the property
access yields `undefined` and the call throws a `TypeError`. At the concrete
chain `frobnicate!1,2|resize!2,2,2` the pipeline aborts at the first step
(the `resize` step never executes) and the orchestrator answers with the
fallback 500 response instead of a transformed image. -/
theorem C1_counterexample :
    runPipe demoWorld envNone ["frobnicate!1,2", "resize!2,2,2"] 0 demoSt0 =
      .error (JSError.typeError "frobnicate is not a function") ∧
    fetchHandler demoWorld envNone "http://worker.test/x"
      ⟨some "http://img.example.com/a.png", some "frobnicate!1,2|resize!2,2,2",
       some "png", none⟩ [] =
      .ok ⟨⟨500, [("content-type", "image/png")], some [1, 2, 3]⟩, []⟩ := by
  exact ⟨rfl, rfl⟩

/-- Claim C1 amended: a step whose operation name neither resolves among the
photon exports nor belongs to the dual-image name list makes `processImage`
throw a `TypeError`, which aborts the whole pipeline — the remaining steps do
not execute, and the orchestrator later degrades to the fallback response. -/
theorem C1_unknown_op_throws (w : World) (env : Env) (h : Nat) (pa : String)
    (st : PState) (rest : List String)
    (hname : w.photonOps (parseStep pa).1 = none)
    (hnotdual : (parseStep pa).1 ∉ multipleImageMode) :
    processImage w env h pa st =
      .error (JSError.typeError ((parseStep pa).1 ++ " is not a function")) ∧
    runPipe w env (pa :: rest) h st =
      .error (JSError.typeError ((parseStep pa).1 ++ " is not a function")) := by
  have h1 : processImage w env h pa st =
      .error (JSError.typeError ((parseStep pa).1 ++ " is not a function")) := by
    simp [processImage, hnotdual, hname]
  exact ⟨h1, by simp [runPipe, h1]⟩

/-- Witness for `C1_unknown_op_throws` at the concrete step `nope!3`. -/
theorem C1_unknown_op_throws_witness :
    processImage demoWorld envNone 0 "nope!3" demoSt0 =
      .error (JSError.typeError "nope is not a function") ∧
    runPipe demoWorld envNone ["nope!3", "grayscale"] 0 demoSt0 =
      .error (JSError.typeError "nope is not a function") := by
  simpa using C1_unknown_op_throws demoWorld envNone 0 "nope!3" demoSt0
    ["grayscale"] rfl (by decide)

/-- Claim C2 is false on the code: `processImage` contains no `free()` call
at all, so after a successful `watermark` step the secondary handle (id 1)
has zero release events — not exactly one — and is still live in the heap
after the step ends. -/
theorem C2_counterexample :
    processImage demoWorld envNone 0 "watermark!http://img.example.com/w.png,10,10" demoSt0 =
      .ok (some 0, ⟨2, [(1, ⟨1, 1, [9]⟩), (0, ⟨2, 2, [1, 2, 3, 4, 9]⟩)],
                    [REvent.alloc 0, REvent.alloc 1]⟩) ∧
    freeCount [REvent.alloc 0, REvent.alloc 1] 1 = 0 ∧
    heapGet ⟨2, [(1, ⟨1, 1, [9]⟩), (0, ⟨2, 2, [1, 2, 3, 4, 9]⟩)],
             [REvent.alloc 0, REvent.alloc 1]⟩ 1 = some ⟨1, 1, [9]⟩ := by
  exact ⟨rfl, rfl, rfl⟩

/-- Claim C2 amended: a dual-image step that acquires its secondary image
allocates it and never releases it — the step appends exactly one allocation
event and no release event to the trace, and the secondary handle is still
live (holding the combine call's secondary output buffer) when the step
returns. -/
theorem C2_secondary_not_released (w : World) (env : Env) (h : Nat)
    (pa action image2 : String) (params : List String) (st : PState)
    (f : PhotonFn) (sv pv pv2 sv2 : ImageVal)
    (hparse : parseStep pa = (action, image2 :: params))
    (hdual : action ∈ multipleImageMode)
    (himg2 : image2 ≠ "")
    (hgate : inWhiteList w.parseHostname env image2 = .ok true)
    (hfetch : (w.fetch image2).ok = true)
    (hdec : w.newFromByteslice (w.fetch image2).bytes = .ok sv)
    (hop : w.photonOps action = some f)
    (hheap : heapGet (allocHandle sv st).2 h = some pv)
    (hcall : f.call2 pv sv params = .ok (pv2, sv2)) :
    processImage w env h pa st =
      .ok (some h, heapSet (heapSet (allocHandle sv st).2 h pv2) st.nextId sv2) ∧
    (heapSet (heapSet (allocHandle sv st).2 h pv2) st.nextId sv2).events =
      st.events ++ [REvent.alloc st.nextId] ∧
    heapGet (heapSet (heapSet (allocHandle sv st).2 h pv2) st.nextId sv2) st.nextId = some sv2 := by
  refine ⟨?_, ?_, ?_⟩
  · simp [processImage, hparse, hdual, himg2, hgate, hfetch, hdec, hop, hheap, hcall]
    simp [allocHandle]
  · simp [heapSet, allocHandle]
  · rw [heapGet_heapSet]
    rw [heapGet_heapSet]
    have hlive : heapGet (allocHandle sv st).2 st.nextId = some sv := by
      simp [heapGet, allocHandle, List.find?]
    rw [hlive]
    simp

/-- Witness for `C2_secondary_not_released` at the concrete watermark step of
the demo world. -/
theorem C2_secondary_not_released_witness :
    processImage demoWorld envNone 0 "watermark!http://img.example.com/w.png,10" demoSt0 =
      .ok (some 0, heapSet (heapSet (allocHandle demoMark demoSt0).2 0 ⟨2, 2, [1, 2, 3, 4, 9]⟩)
                     demoSt0.nextId demoMark) ∧
    (heapSet (heapSet (allocHandle demoMark demoSt0).2 0 ⟨2, 2, [1, 2, 3, 4, 9]⟩)
       demoSt0.nextId demoMark).events = demoSt0.events ++ [REvent.alloc demoSt0.nextId] ∧
    heapGet (heapSet (heapSet (allocHandle demoMark demoSt0).2 0 ⟨2, 2, [1, 2, 3, 4, 9]⟩)
       demoSt0.nextId demoMark) demoSt0.nextId = some demoMark :=
  C2_secondary_not_released demoWorld envNone 0
    "watermark!http://img.example.com/w.png,10" "watermark"
    "http://img.example.com/w.png" ["10"] demoSt0 demoDual demoMark
    demoImage ⟨2, 2, [1, 2, 3, 4, 9]⟩ demoMark
    (by decide) (by decide) (by decide) (by decide) (by decide) (by decide)
    rfl (by decide) (by decide)

/-- Claim C3 is false on the code: `''.split(',')` in JS yields `['']`, so a
step written as a bare name (or a name followed by `'!'` and nothing) parses
to the one-element parameter list `[""]`, not to the empty list, and the
operation handler receives one empty-string argument — the demo `probe`
export observes argument count 1 (the width of its returned image). -/
theorem C3_counterexample :
    (parseStep "resize").2 = [""] ∧
    (parseStep "rotate!").2 = [""] ∧
    (parseStep "resize").2 ≠ ([] : List String) ∧
    processImage demoWorld envNone 0 "probe" demoSt0 =
      .ok (some 1, ⟨2, [(1, ⟨1, 99, []⟩), (0, demoImage)],
                    [REvent.alloc 0, REvent.alloc 1]⟩) := by
  exact ⟨rfl, rfl, by decide, rfl⟩

/-- Claim C3 amended: a step whose raw parameter string is empty parses to
the single-element parameter list `[""]` (one empty-string parameter), and a
single-image handler is therefore invoked with exactly that one argument. -/
theorem C3_empty_params_single_empty_string (pa name : String)
    (hsplit : jsSplit '!' pa = [name] ∨ jsSplit '!' pa = [name, ""]) :
    parseStep pa = (name, [""]) ∧
    (parseStep pa).2.length = 1 ∧
    (∀ (w : World) (env : Env) (h : Nat) (st : PState) (f : PhotonFn)
       (pv pv2 : ImageVal),
      name ∉ multipleImageMode →
      w.photonOps name = some f →
      heapGet st h = some pv →
      f.call1 pv [""] = .ok (pv2, none) →
      processImage w env h pa st = .ok (none, heapSet st h pv2)) := by
  have hp : parseStep pa = (name, [""]) := by
    rcases hsplit with hs | hs <;> simp [parseStep, hs] <;> rfl
  refine ⟨hp, by rw [hp]; rfl, ?_⟩
  intro w env h st f pv pv2 hnotdual hop hheap hcall
  simp [processImage, hp, hnotdual, hop, hheap, hcall]

/-- Witness for `C3_empty_params_single_empty_string` at the bare step
`grayscale` (the demo in-place export, which receives the one empty-string
argument and returns `undefined`). -/
theorem C3_empty_params_single_empty_string_witness :
    parseStep "grayscale" = ("grayscale", [""]) ∧
    (parseStep "grayscale").2.length = 1 ∧
    processImage demoWorld envNone 0 "grayscale" demoSt0 =
      .ok (none, heapSet demoSt0 0 ⟨2, 2, [0, 0, 0, 0]⟩) := by
  obtain ⟨h1, h2, h3⟩ := C3_empty_params_single_empty_string "grayscale" "grayscale"
    (Or.inl (by decide))
  exact ⟨h1, h2, h3 demoWorld envNone 0 demoSt0 demoVoid demoImage
    ⟨2, 2, [0, 0, 0, 0]⟩ (by decide) rfl (by decide) (by decide)⟩

/-- Claim C4 is false on the code: `new URL(url)` throws on an unparseable
string and `inWhiteList` has no exception handling, so the gate raises a
`TypeError` instead of returning false. For a primary url that fails to
parse, the whitelist check sits before the `try` block and the exception
escapes the handler uncaught (no 403 response is produced); for a dual-step
secondary URL that fails to parse, the throw aborts the whole pipeline and
the request degrades to the 500 fallback — the step is not merely skipped. -/
theorem C4_counterexample :
    inWhiteList demoParse envNone "not a url" = .error (JSError.typeError "Invalid URL") ∧
    fetchHandler demoWorld envNone "http://worker.test/y"
      ⟨some "notaurl", none, none, none⟩ [] =
      .error (JSError.typeError "Invalid URL") ∧
    processImage demoWorld envNone 0 "watermark!notaurl,1" demoSt0 =
      .error (JSError.typeError "Invalid URL") ∧
    fetchHandler demoWorld envNone "http://worker.test/w"
      ⟨some "http://img.example.com/a.png", some "watermark!notaurl,1", none, none⟩ [] =
      .ok ⟨⟨500, [("content-type", "image/png")], some [1, 2, 3]⟩, []⟩ :=
  ⟨rfl, rfl, rfl, rfl⟩

/-- Claim C4 amended: when the URL string fails to parse, the Whitelist Gate
throws a `TypeError` rather than returning false. Consequently a request
whose primary url does not parse makes the handler itself throw (it is not
answered with a 403), and a dual step whose secondary URL does not parse
throws out of `processImage`, aborting the pipeline instead of skipping the
step. -/
theorem C4_unparseable_url_throws :
    (∀ (p : String → Option String) (env : Env) (url : String), p url = none →
      inWhiteList p env url = .error (JSError.typeError "Invalid URL")) ∧
    (∀ (w : World) (env : Env) (rq u : String) (q : Query)
       (cache : List (String × Response)),
      assocFind cache rq = none → q.url = some u → u ≠ "" →
      w.parseHostname u = none →
      fetchHandler w env rq q cache = .error (JSError.typeError "Invalid URL")) ∧
    (∀ (w : World) (env : Env) (h : Nat) (pa action image2 : String)
       (params : List String) (st : PState),
      parseStep pa = (action, image2 :: params) →
      action ∈ multipleImageMode → image2 ≠ "" →
      w.parseHostname image2 = none →
      processImage w env h pa st = .error (JSError.typeError "Invalid URL")) := by
  refine ⟨?_, ?_, ?_⟩
  · intro p env url hp
    simp [inWhiteList, hp]
  · intro w env rq u q cache hc hu hne hp
    simp [fetchHandler, hc, hu, hne, inWhiteList, hp]
  · intro w env h pa action image2 params st hparse hdual himg2 hp
    simp [processImage, hparse, hdual, himg2, inWhiteList, hp]

/-- Witness for `C4_unparseable_url_throws` at concrete unparseable URLs. -/
theorem C4_unparseable_url_throws_witness :
    inWhiteList demoParse envMiantiao "nota url" = .error (JSError.typeError "Invalid URL") ∧
    fetchHandler demoWorld envMiantiao "http://worker.test/q"
      ⟨some "bad url", none, none, none⟩ [] =
      .error (JSError.typeError "Invalid URL") ∧
    processImage demoWorld envNone 0 "blend!bad url,2" demoSt0 =
      .error (JSError.typeError "Invalid URL") := by
  obtain ⟨h1, h2, h3⟩ := C4_unparseable_url_throws
  exact ⟨h1 demoParse envMiantiao "nota url" rfl,
    h2 demoWorld envMiantiao "http://worker.test/q" "bad url"
      ⟨some "bad url", none, none, none⟩ [] rfl rfl (by decide) rfl,
    h3 demoWorld envNone 0 "blend!bad url,2" "blend" "bad url" ["2"] demoSt0
      (by decide) (by decide) (by decide) rfl⟩

/-- Claim C5 is half false on the code: an unsupported format string such as
`gif` does fall back to the WEBP encode path, but the `content-type` header
comes from `OUTPUT_FORMATS[format]`, which is `undefined` for unsupported
formats — the header materializes as the string `"undefined"`, not as
`image/webp`. -/
theorem C5_counterexample :
    selectEncoder "gif" = EncPath.webp ∧
    assocFind OUTPUT_FORMATS "gif" = none ∧
    jsHeaderString (assocFind OUTPUT_FORMATS "gif") = "undefined" ∧
    ("undefined" : String) ≠ "image/webp" ∧
    fetchHandler demoWorld envNone "http://worker.test/z"
      ⟨some "http://img.example.com/a.png", none, some "gif", none⟩ [] =
      .ok ⟨⟨200, [("content-type", "undefined"),
                  ("cache-control", "public,max-age=15552000,s-maxage=15552000")],
            some [23]⟩,
           [("http://worker.test/z",
             ⟨200, [("content-type", "undefined"),
                    ("cache-control", "public,max-age=15552000,s-maxage=15552000")],
              some [23]⟩)]⟩ :=
  ⟨rfl, rfl, rfl, by decide, rfl⟩

/-- Claim C5 amended: every format string other than `jpeg`, `jpg`, `png`
takes the WEBP encode path, and every format string outside the
`OUTPUT_FORMATS` table has no MIME entry, so the `content-type` header of
the response is the stringified `undefined`, not `image/webp`. -/
theorem C5_unsupported_format_webp_path (format : String)
    (h1 : format ≠ "jpeg") (h2 : format ≠ "jpg") (h3 : format ≠ "png")
    (h4 : format ≠ "webp") :
    selectEncoder format = EncPath.webp ∧
    assocFind OUTPUT_FORMATS format = none ∧
    jsHeaderString (assocFind OUTPUT_FORMATS format) = "undefined" := by
  have n1 : (("jpeg" : String) == format) = false := beq_eq_false_iff_ne.mpr (Ne.symm h1)
  have n2 : (("jpg" : String) == format) = false := beq_eq_false_iff_ne.mpr (Ne.symm h2)
  have n3 : (("png" : String) == format) = false := beq_eq_false_iff_ne.mpr (Ne.symm h3)
  have n4 : (("webp" : String) == format) = false := beq_eq_false_iff_ne.mpr (Ne.symm h4)
  have ha : assocFind OUTPUT_FORMATS format = none := by
    simp [assocFind, OUTPUT_FORMATS, List.find?, n1, n2, n3, n4]
  refine ⟨by simp [selectEncoder, h1, h2, h3], ha, by rw [ha]; rfl⟩

/-- Witness for `C5_unsupported_format_webp_path` at `format = "gif"`. -/
theorem C5_unsupported_format_webp_path_witness :
    selectEncoder "avif" = EncPath.webp ∧
    assocFind OUTPUT_FORMATS "avif" = none ∧
    jsHeaderString (assocFind OUTPUT_FORMATS "avif") = "undefined" :=
  C5_unsupported_format_webp_path "avif" (by decide) (by decide) (by decide) (by decide)

/-- Boolean shape of the whitelist expression, given that the truthiness of
the first match agrees with plain existence of a match. -/
lemma whitelistBoolEq (wl : List String) (pred : String → Bool)
    (h : jsTruthyStr (jsFind pred wl) = wl.any pred) :
    (!(wl.length != 0 && !(jsTruthyStr (jsFind pred wl)))) = (wl.isEmpty || wl.any pred) := by
  rw [h]; cases wl <;> simp

/-- Claim C6 is false on the code: with `WHITE_LIST = "example.com,"` the
suffix set is `["example.com", ""]` and the host `evil.com` ends with the
member `""`, so the claim's predicate permits it — but `inWhiteList` returns
false, because `find` returns the matched element itself and the matched
empty string is falsy. -/
theorem C6_counterexample :
    whiteListOf envTrailing = ["example.com", ""] ∧
    specPermitted (whiteListOf envTrailing) "evil.com" = true ∧
    demoParse "http://evil.com/p.png" = some "evil.com" ∧
    inWhiteList demoParse envTrailing "http://evil.com/p.png" = .ok false :=
  ⟨rfl, rfl, rfl, rfl⟩

/-- Claim C6 amended: for every whitelist configuration whose parsed suffix
set has no empty entry, a parseable URL is permitted iff the set is empty or
the hostname ends with some configured suffix (the spec's predicate), and
the same `inWhiteList` gate is what answers 403 for the primary URL and
skips a dual step for a rejected secondary URL. -/
theorem C6_whitelist_gate (p : String → Option String) (env : Env)
    (url host : String) (hp : p url = some host)
    (hne : ∀ s ∈ whiteListOf env, s ≠ "") :
    inWhiteList p env url = .ok (specPermitted (whiteListOf env) host) ∧
    (∀ (w : World) (rq u : String) (q : Query) (cache : List (String × Response)),
      assocFind cache rq = none → q.url = some u → u ≠ "" →
      inWhiteList w.parseHostname env u = .ok false →
      fetchHandler w env rq q cache = .ok ⟨⟨403, [], none⟩, []⟩) ∧
    (∀ (w : World) (h : Nat) (pa action image2 : String) (params : List String)
       (st : PState),
      parseStep pa = (action, image2 :: params) → action ∈ multipleImageMode →
      image2 ≠ "" → inWhiteList w.parseHostname env image2 = .ok false →
      processImage w env h pa st = .ok (none, st)) := by
  refine ⟨?_, ?_, ?_⟩
  · have hfind := jsTruthyStr_jsFind_of_ne
      (fun hostname => jsEndsWith host hostname) (whiteListOf env) hne
    simp only [inWhiteList, hp, specPermitted]
    exact congrArg Except.ok (whitelistBoolEq _ _ hfind)
  · intro w rq u q cache hc hu hne2 hgate
    simp [fetchHandler, hc, hu, hne2, hgate]
  · intro w h pa action image2 params st hparse hdual himg2 hgate
    simp [processImage, hparse, hdual, himg2, hgate]

/-- Witness for `C6_whitelist_gate` on the specification's own example
(suffix set `{"miantiao.me"}`) and a rejected secondary step. -/
theorem C6_whitelist_gate_witness :
    inWhiteList demoParse envMiantiao "http://static.miantiao.me/a.png" =
      .ok (specPermitted (whiteListOf envMiantiao) "static.miantiao.me") ∧
    specPermitted (whiteListOf envMiantiao) "static.miantiao.me" = true ∧
    fetchHandler demoWorld envMiantiao "http://worker.test/e"
      ⟨some "http://evil.com/x.png", none, none, none⟩ [] =
      .ok ⟨⟨403, [], none⟩, []⟩ ∧
    processImage demoWorld envMiantiao 0 "watermark!http://evil.com/x.png,1" demoSt0 =
      .ok (none, demoSt0) := by
  obtain ⟨h1, h2, h3⟩ := C6_whitelist_gate demoParse envMiantiao
    "http://static.miantiao.me/a.png" "static.miantiao.me" rfl (by decide)
  refine ⟨h1, by decide, ?_, ?_⟩
  · exact h2 demoWorld "http://worker.test/e" "http://evil.com/x.png"
      ⟨some "http://evil.com/x.png", none, none, none⟩ [] rfl rfl (by decide) (by decide)
  · exact h3 demoWorld 0 "watermark!http://evil.com/x.png,1" "watermark"
      "http://evil.com/x.png" ["1"] demoSt0 (by decide) (by decide) (by decide) (by decide)

/-- Claim C7 confirmed: when the cache misses, the primary URL passes the
gate and its fetch succeeds, but the `try` block (decode, pipeline, encode)
throws some error `e`, the handler answers with exactly the original fetched
bytes as body, the upstream response's headers, status 415 precisely when
the error is the image engine's `RuntimeError` (the wasm runtime error class,
the source's reading of a decode/runtime failure) and 500 otherwise — and it
issues no cache write. -/
theorem C7_fallback_response (w : World) (env : Env) (rq u : String) (q : Query)
    (cache : List (String × Response)) (e : JSError)
    (hc : assocFind cache rq = none)
    (hu : q.url = some u) (hne : u ≠ "")
    (hwl : inWhiteList w.parseHostname env u = .ok true)
    (hok : (w.fetch u).ok = true)
    (herr : tryProcess w env (w.fetch u) (q.action.getD "") (q.format.getD "webp")
      (q.quality.getD "99") initPState = .error e) :
    fetchHandler w env rq q cache =
      .ok ⟨⟨if e.name == "RuntimeError" then 415 else 500,
            (w.fetch u).headers, some (w.fetch u).bytes⟩, []⟩ := by
  simp [fetchHandler, hc, hu, hne, hwl, hok, herr]

/-- Witness for `C7_fallback_response`: a primary image whose bytes fail to
decode with a `RuntimeError` yields the 415 fallback carrying the original
bytes and upstream headers, with no cache write. -/
theorem C7_fallback_response_witness :
    fetchHandler demoWorld envNone "http://worker.test/b"
      ⟨some "http://img.example.com/bad.bin", none, none, none⟩ [] =
      .ok ⟨⟨415, [("content-type", "image/png")], some [0]⟩, []⟩ :=
  C7_fallback_response demoWorld envNone "http://worker.test/b"
    "http://img.example.com/bad.bin"
    ⟨some "http://img.example.com/bad.bin", none, none, none⟩ []
    ⟨"RuntimeError", "unreachable"⟩ rfl rfl (by decide) (by decide) rfl (by decide)

/-- Claim C8 confirmed: in a dual-image step the first parameter entry is
consumed as the secondary URL and the remaining entries are the literal
parameters handed to the combine call; when the secondary URL is absent
(empty), rejected by the Whitelist Gate, or its fetch is not successful, the
step returns `undefined`, the reducer keeps the unchanged primary handle and
state, and the rest of the pipeline continues. -/
theorem C8_dual_step (w : World) (env : Env) (h : Nat)
    (pa action image2 : String) (params : List String) (st : PState)
    (rest : List String)
    (hparse : parseStep pa = (action, image2 :: params))
    (hdual : action ∈ multipleImageMode) :
    (image2 = "" →
      processImage w env h pa st = .ok (none, st) ∧
      runPipe w env (pa :: rest) h st = runPipe w env rest h st) ∧
    (image2 ≠ "" → inWhiteList w.parseHostname env image2 = .ok false →
      processImage w env h pa st = .ok (none, st) ∧
      runPipe w env (pa :: rest) h st = runPipe w env rest h st) ∧
    (image2 ≠ "" → inWhiteList w.parseHostname env image2 = .ok true →
      (w.fetch image2).ok = false →
      processImage w env h pa st = .ok (none, st) ∧
      runPipe w env (pa :: rest) h st = runPipe w env rest h st) ∧
    (∀ (f : PhotonFn) (sv pv pv2 sv2 : ImageVal),
      image2 ≠ "" → inWhiteList w.parseHostname env image2 = .ok true →
      (w.fetch image2).ok = true →
      w.newFromByteslice (w.fetch image2).bytes = .ok sv →
      w.photonOps action = some f →
      heapGet (allocHandle sv st).2 h = some pv →
      f.call2 pv sv params = .ok (pv2, sv2) →
      processImage w env h pa st =
        .ok (some h, heapSet (heapSet (allocHandle sv st).2 h pv2) st.nextId sv2)) := by
  refine ⟨?_, ?_, ?_, ?_⟩
  · intro h2
    have hpi : processImage w env h pa st = .ok (none, st) := by
      simp [processImage, hparse, hdual, h2]
    exact ⟨hpi, by simp [runPipe, hpi]⟩
  · intro h2 hg
    have hpi : processImage w env h pa st = .ok (none, st) := by
      simp [processImage, hparse, hdual, h2, hg]
    exact ⟨hpi, by simp [runPipe, hpi]⟩
  · intro h2 hg hf
    have hpi : processImage w env h pa st = .ok (none, st) := by
      simp [processImage, hparse, hdual, h2, hg, hf]
    exact ⟨hpi, by simp [runPipe, hpi]⟩
  · intro f sv pv pv2 sv2 h2 hg hf hdec hop hheap hcall
    simp [processImage, hparse, hdual, h2, hg, hf, hdec, hop, hheap, hcall]
    simp [allocHandle]

/-- Witness for `C8_dual_step` on all four cases: a bare `watermark` step
(absent secondary), a `blend` step with a non-whitelisted secondary, a
`watermark` step whose secondary fetch 404s, and a fully successful `blend`
step consuming the first parameter as URL and passing `["5"]` on. -/
theorem C8_dual_step_witness :
    processImage demoWorld envNone 0 "watermark" demoSt0 = .ok (none, demoSt0) ∧
    processImage demoWorld envMiantiao 0 "blend!http://evil.com/x.png,3" demoSt0 =
      .ok (none, demoSt0) ∧
    processImage demoWorld envNone 0 "watermark!http://img.example.com/missing.png,4" demoSt0 =
      .ok (none, demoSt0) ∧
    processImage demoWorld envNone 0 "blend!http://img.example.com/w.png,5" demoSt0 =
      .ok (some 0, heapSet (heapSet (allocHandle demoMark demoSt0).2 0 ⟨2, 2, [1, 2, 3, 4, 9]⟩)
            demoSt0.nextId demoMark) := by
  refine ⟨?_, ?_, ?_, ?_⟩
  · exact ((C8_dual_step demoWorld envNone 0 "watermark" "watermark" "" [] demoSt0 []
      (by decide) (by decide)).1 rfl).1
  · exact ((C8_dual_step demoWorld envMiantiao 0 "blend!http://evil.com/x.png,3" "blend"
      "http://evil.com/x.png" ["3"] demoSt0 [] (by decide) (by decide)).2.1
      (by decide) (by decide)).1
  · exact ((C8_dual_step demoWorld envNone 0 "watermark!http://img.example.com/missing.png,4"
      "watermark" "http://img.example.com/missing.png" ["4"] demoSt0 [] (by decide)
      (by decide)).2.2.1 (by decide) (by decide) (by decide)).1
  · exact (C8_dual_step demoWorld envNone 0 "blend!http://img.example.com/w.png,5" "blend"
      "http://img.example.com/w.png" ["5"] demoSt0 [] (by decide) (by decide)).2.2.2
      demoDual demoMark demoImage ⟨2, 2, [1, 2, 3, 4, 9]⟩ demoMark
      (by decide) (by decide) (by decide) (by decide) rfl (by decide) (by decide)

/-- Claim C9 confirmed: the two-phase decode is driven by the declared
`content-type` of the successful primary response — exactly `image/webp`
routes the bytes through the external WEBP decoder and rehydrates the raw
pixels through the raw-pixel constructor with the decoder's explicit width
and height; every other content-type (including a missing header) goes
directly through the byte-slice constructor. -/
theorem C9_two_phase_decode (w : World) (res : FetchResult) (st : PState) :
    (∀ d : WebpImageData, headersGet res.headers "content-type" = some "image/webp" →
      w.decodeWebp res.bytes = .ok d →
      decodeInput w res st = .ok (allocHandle ⟨d.width, d.height, d.data⟩ st)) ∧
    (headersGet res.headers "content-type" ≠ some "image/webp" →
      ∀ v : ImageVal, w.newFromByteslice res.bytes = .ok v →
      decodeInput w res st = .ok (allocHandle v st)) := by
  constructor
  · intro d hct hdec
    simp [decodeInput, hct, hdec]
  · intro hct v hdec
    simp [decodeInput, hct, hdec]

/-- Witness for `C9_two_phase_decode`: the demo WEBP response decodes through
the external decoder into a 1×1 raw-pixel image, while the demo PNG response
decodes through the byte-slice constructor. -/
theorem C9_two_phase_decode_witness :
    decodeInput demoWorld (demoWorld.fetch "http://img.example.com/c.webp") initPState =
      .ok (allocHandle ⟨1, 1, [8, 8, 8, 8]⟩ initPState) ∧
    decodeInput demoWorld (demoWorld.fetch "http://img.example.com/a.png") initPState =
      .ok (allocHandle demoImage initPState) :=
  ⟨(C9_two_phase_decode demoWorld (demoWorld.fetch "http://img.example.com/c.webp")
      initPState).1 ⟨[8, 8, 8, 8], 1, 1⟩ (by decide) (by decide),
   (C9_two_phase_decode demoWorld (demoWorld.fetch "http://img.example.com/a.png")
      initPState).2 (by decide) demoImage (by decide)⟩

/-- Claim C10 is false on the code in its conclusion: with
`WHITE_LIST = "example.com,"` the parsed list does contain the empty string
and every hostname ends with it, yet `evil.com` is still rejected — because
`find` returns the matched element and the matched empty string is falsy,
the empty entry grants nothing and the whitelist keeps restricting. -/
theorem C10_counterexample :
    whiteListOf envTrailing = ["example.com", ""] ∧
    (whiteListOf envTrailing).contains "" = true ∧
    jsEndsWith "evil.com" "" = true ∧
    inWhiteList demoParse envTrailing "http://evil.com/q.png" = .ok false :=
  ⟨rfl, rfl, rfl, rfl⟩

/-- Truthiness of a first-match lookup over a list of non-empty entries with
one trailing empty entry ignores the trailing entry: a match on the falsy
empty string counts as no match. -/
lemma jsTruthyStr_jsFind_append_empty (pred : String → Bool) (l : List String)
    (hne : ∀ s ∈ l, s ≠ "") :
    jsTruthyStr (jsFind pred (l ++ [""])) = l.any pred := by
  induction l with
  | nil => cases hpe : pred "" <;> simp [jsFind, jsTruthyStr, hpe]
  | cons x xs ih =>
    by_cases hx : pred x
    · have hxne : x ≠ "" := hne x (by simp)
      simp [jsFind, jsTruthyStr, hx, hxne]
    · simp [jsFind, hx, ih (fun s hs => hne s (by simp [hs]))]

/-- Claim C10 amended: an empty whitelist entry (e.g. from a trailing comma)
does match every hostname, but it imposes no allowance either — since `find`
returns the matched element and the empty string is falsy, a parseable URL
is permitted exactly when its hostname ends with one of the non-empty
entries, the same behavior as without the trailing comma; the non-empty
whitelist keeps restricting. -/
theorem C10_empty_entry_no_allowance (p : String → Option String) (env : Env)
    (l : List String) (url host : String)
    (hp : p url = some host)
    (hwl : whiteListOf env = l ++ [""])
    (hne : ∀ s ∈ l, s ≠ "") :
    inWhiteList p env url = .ok (l.any (fun s => jsEndsWith host s)) := by
  simp only [inWhiteList, hp, hwl]
  rw [jsTruthyStr_jsFind_append_empty _ _ hne]
  cases hany : l.any (fun s => jsEndsWith host s) <;> simp [hany]

/-- Witness for `C10_empty_entry_no_allowance`: under
`WHITE_LIST = "example.com,"`, a host inside `example.com` is permitted
exactly because it matches the non-empty entry. -/
theorem C10_empty_entry_no_allowance_witness :
    inWhiteList demoParse envTrailing "http://static.example.com/p.png" =
      .ok ((["example.com"] : List String).any (fun s => jsEndsWith "static.example.com" s)) ∧
    (["example.com"] : List String).any (fun s => jsEndsWith "static.example.com" s) = true :=
  ⟨C10_empty_entry_no_allowance demoParse envTrailing ["example.com"]
     "http://static.example.com/p.png" "static.example.com" rfl (by decide) (by decide),
   by decide⟩

end CWI
